import Mathlib

/-!
Verification development for the statement transaction extractor of
`app/services/receipt_ocr.py` (class `ReceiptOCRAgent`).

The extractor is shallowly embedded: each Python function that the claims
touch is translated into an executable Lean definition.  Python regular
expressions are modelled by a small backtracking engine (`RE`, `reMat`,
`reSearchFrom`, `reSubAll`) that reproduces `re`'s leftmost-search and
alternation/quantifier priority semantics for the constructs the source
uses; `datetime.strptime` is modelled directive-by-directive after
CPython's `_strptime` (`strptimeDate`).  Monetary amounts are modelled as
exact integer cents: every amount the source parses has at most two
decimal digits, and only signs, sums and absolute values of amounts are
at stake, so binary floating point introduces no relevant divergence.
-/

namespace ReceiptOcr

/-- Python `\s` / `str.strip` whitespace (ASCII range, which is all the
extractor's inputs use). -/
def pyWS (c : Char) : Bool :=
  c = ' ' || c = '\t' || c = '\n' || c = '\r' || c = '\x0b' || c = '\x0c'

/-- Python `str.upper` on a character (ASCII). -/
def pyCharUpper (c : Char) : Char :=
  if 'a' ≤ c ∧ c ≤ 'z' then Char.ofNat (c.toNat - 32) else c

/-- Python `str.upper`. -/
def pyUpper (s : String) : String :=
  String.mk (s.data.map pyCharUpper)

/-- Python `str.lower` on a character (ASCII), for case-insensitive regexes. -/
def pyCharLower (c : Char) : Char :=
  if 'A' ≤ c ∧ c ≤ 'Z' then Char.ofNat (c.toNat + 32) else c

/-- Trim from the left: drop leading whitespace. -/
def trimLeftC (l : List Char) : List Char := l.dropWhile pyWS

/-- Python `str.strip` on a character list: drop whitespace on both ends. -/
def trimC (l : List Char) : List Char :=
  ((l.dropWhile pyWS).reverse.dropWhile pyWS).reverse

/-- Python `str.strip`. -/
def pyStrip (s : String) : String := String.mk (trimC s.data)

/-- Python `str.split('\n')` on a character list. -/
def splitNlC (l : List Char) : List (List Char) :=
  match l with
  | [] => [[]]
  | c :: t =>
    let r := splitNlC t
    if c = '\n' then [] :: r
    else
      match r with
      | h :: rest => (c :: h) :: rest
      | [] => [[c]]

/-- Python `text.split('\n')`. -/
def splitLines (s : String) : List String :=
  (splitNlC s.data).map String.mk

/-- Python substring containment (`needle in hay`) for a nonempty needle. -/
def strContainsC (needle : List Char) : List Char → Bool
  | [] => needle.isEmpty
  | c :: t => needle.isPrefixOf (c :: t) || strContainsC needle t

/-- Python `needle in hay` on strings. -/
def strContains (hay needle : String) : Bool :=
  strContainsC needle.data hay.data

/-- Numeric value of a digit string (the strings fed to it are all-digit). -/
def natOfDigits (l : List Char) : Nat :=
  l.foldl (fun acc c => acc * 10 + (c.toNat - '0'.toNat)) 0

/-! ## A backtracking regular-expression engine

Implements exactly the fragment of Python `re` the extractor uses:
character classes, concatenation, prioritized alternation, capture
groups, greedy/lazy counted repetition of one-character classes, `^`,
`$`, and `\b`.  Unbounded repetition of a multi-character group
(`(?:...)*`) appears once in the source and is modelled by bounded
unrolling (`starUpTo`), sound because its body consumes at least one
character.  `$` is modelled as end-of-input: every string the source
matches with `$` is a single line without a trailing newline, where
Python's `$` and `\Z` coincide. -/

inductive RE where
  /-- Matches the empty string. -/
  | emp : RE
  /-- A one-character class. -/
  | sym : (Char → Bool) → RE
  /-- Concatenation. -/
  | cat : RE → RE → RE
  /-- Alternation; the left branch has priority, as in Python. -/
  | alt : RE → RE → RE
  /-- Capture group `n`. -/
  | grp : Nat → RE → RE
  /-- `p{lo,hi}` over a one-character class; `hi = none` means unbounded;
  `lazy = true` for `+?`-style minimal repetition. -/
  | rep : (lazy : Bool) → (lo : Nat) → (hi : Option Nat) → (Char → Bool) → RE
  /-- `^` (no MULTILINE anywhere in the source). -/
  | bos : RE
  /-- `$`, modelled as end of input (see module comment). -/
  | eos : RE
  /-- `\b`. -/
  | wb : RE

/-- Captured spans, newest first; Python keeps a group's last capture. -/
abbrev Caps := List (Nat × Nat × Nat)

/-- Python's `\w` for `\b` purposes (ASCII inputs). -/
def isWordChar (c : Char) : Bool := c.isAlphanum || c = '_'

/-- Is position `i` of `s` a `\b` word boundary? -/
def wbAt (s : List Char) (i : Nat) : Bool :=
  let before :=
    match i with
    | 0 => false
    | j + 1 => match s.get? j with
      | some c => isWordChar c
      | none => false
  let after :=
    match s.get? i with
    | some c => isWordChar c
    | none => false
  before != after

/-- Length of the run of characters satisfying `p` starting at `i`
(`fuel` bounds the recursion; callers pass the string length). -/
def runLen (p : Char → Bool) (s : List Char) (i : Nat) : Nat → Nat
  | 0 => 0
  | fuel + 1 =>
    match s.get? i with
    | some c => if p c then runLen p s (i + 1) fuel + 1 else 0
    | none => 0

/-- `[lo, lo+1, ..., hi]`. -/
def upTo (lo hi : Nat) : List Nat := List.range' lo (hi + 1 - lo)

/-- First `some` of `f` over a list, in order. -/
def firstSome (f : α → Option β) : List α → Option β
  | [] => none
  | a :: as =>
    match f a with
    | some b => some b
    | none => firstSome f as

/-- The matcher, in continuation-passing style: `reMat r s i g k` explores
the ways `r` can match `s` starting at absolute position `i` in Python's
priority order, handing each end position and capture list to `k` until
`k` succeeds.  This reproduces `re`'s backtracking exactly on the
constructs of `RE`. -/
def reMat : RE → List Char → Nat → Caps → (Nat → Caps → Option (Nat × Caps)) →
    Option (Nat × Caps)
  | .emp, _, i, g, k => k i g
  | .sym p, s, i, g, k =>
    match s.get? i with
    | some c => if p c then k (i + 1) g else none
    | none => none
  | .cat r1 r2, s, i, g, k => reMat r1 s i g (fun j g' => reMat r2 s j g' k)
  | .alt r1 r2, s, i, g, k =>
    match reMat r1 s i g k with
    | some res => some res
    | none => reMat r2 s i g k
  | .grp n r, s, i, g, k => reMat r s i g (fun j g' => k j ((n, i, j) :: g'))
  | .rep lazy lo hi p, s, i, g, k =>
    let maxrun := runLen p s i s.length
    let m := match hi with
      | none => maxrun
      | some h => min h maxrun
    if m < lo then none
    else
      let cands := if lazy then upTo lo m else (upTo lo m).reverse
      firstSome (fun n => k (i + n) g) cands
  | .bos, _, i, g, k => if i = 0 then k i g else none
  | .eos, s, i, g, k => if i = s.length then k i g else none
  | .wb, s, i, g, k => if wbAt s i then k i g else none

/-- `re.search` semantics from position `start`: the leftmost start
position admitting a match wins, and at that position the priority match
is taken.  Returns `(matchStart, matchEnd, captures)`. -/
def reSearchFrom (r : RE) (s : List Char) (start : Nat) :
    Option (Nat × Nat × Caps) :=
  firstSome
    (fun i =>
      match reMat r s i [] (fun j g => some (j, g)) with
      | some (j, g) => some (i, j, g)
      | none => none)
    (upTo start s.length)

/-- The span of group `n` (its last capture, as in Python). -/
def capSpan (g : Caps) (n : Nat) : Option (Nat × Nat) :=
  match g.find? (fun t => t.1 = n) with
  | some (_, a, b) => some (a, b)
  | none => none

/-- The substring `s[a:b]`. -/
def subStr (s : List Char) (a b : Nat) : String :=
  String.mk ((s.drop a).take (b - a))

/-- The string captured by group `n`. -/
def capStr (s : List Char) (g : Caps) (n : Nat) : Option String :=
  (capSpan g n).map (fun ab => subStr s ab.1 ab.2)

/-- `re.sub(r, repl, s)`: replace every non-overlapping match, scanning
left to right.  `fuel` bounds the recursion; `s.length + 1` suffices
because every pattern the source substitutes matches at least one
character (the empty-match guard advances one character regardless). -/
def reSubGo (r : RE) (repl : List Char) (s : List Char) :
    Nat → Nat → List Char
  | 0, pos => s.drop pos
  | fuel + 1, pos =>
    match reSearchFrom r s pos with
    | none => s.drop pos
    | some (a, b, _) =>
      ((s.drop pos).take (a - pos)) ++ repl ++
        (if a < b then reSubGo r repl s fuel b
         else
           match s.get? b with
           | some c => c :: reSubGo r repl s fuel (b + 1)
           | none => [])

/-- `re.sub(r, repl, s)` on strings. -/
def reSubAll (r : RE) (repl : String) (s : String) : String :=
  String.mk (reSubGo r repl.data s.data (s.data.length + 1) 0)

/-- Concatenation of a list of regexes. -/
def seqRE (l : List RE) : RE := l.foldr RE.cat RE.emp

/-- Case-sensitive literal. -/
def litRE (w : String) : RE :=
  seqRE (w.data.map (fun c => RE.sym (fun x => x = c)))

/-- Case-insensitive literal (for patterns compiled with `re.IGNORECASE`). -/
def litCiRE (w : String) : RE :=
  seqRE (w.data.map (fun c => RE.sym (fun x => pyCharLower x = pyCharLower c)))

/-- Greedy `r?` on a compound body: prefer the body, as Python does. -/
def optRE (r : RE) : RE := RE.alt r RE.emp

/-- Greedy `r*` on a compound body, unrolled to at most `n` iterations;
faithful whenever the body consumes at least one character and `n` is at
least the subject length. -/
def starUpTo (n : Nat) (r : RE) : RE :=
  match n with
  | 0 => RE.emp
  | n + 1 => RE.alt (RE.cat r (starUpTo n r)) RE.emp

/-- The class of a slash or a dash (written `[` slash dash `]` in the
source patterns). -/
def sepCl (c : Char) : Bool := c = '/' || c = '-'

/-- `\d`. -/
def digCl (c : Char) : Bool := c.isDigit

/-- `[\d,]`. -/
def digCommaCl (c : Char) : Bool := c.isDigit || c = ','

/-- `.` (any character but newline). -/
def dotCl (c : Char) : Bool := c ≠ '\n'

/-- `[A-Za-z]`. -/
def alphaCl (c : Char) : Bool := ('A' ≤ c ∧ c ≤ 'Z') || ('a' ≤ c ∧ c ≤ 'z')

/-- `[A-Z]`. -/
def upperCl (c : Char) : Bool := 'A' ≤ c ∧ c ≤ 'Z'

/-- `\s+`. -/
def wsPlus : RE := RE.rep false 1 none pyWS

/-- `\s*`. -/
def wsStar : RE := RE.rep false 0 none pyWS

/-- `\s{2,}`. -/
def wsTwoPlus : RE := RE.rep false 2 none pyWS

/-- `\d{1,2}`. -/
def d12 : RE := RE.rep false 1 (some 2) digCl

/-- `\d{2,4}`. -/
def d24 : RE := RE.rep false 2 (some 4) digCl

/-- `\d{4}`. -/
def d4 : RE := RE.rep false 4 (some 4) digCl

/-- `\d{2}`. -/
def d2 : RE := RE.rep false 2 (some 2) digCl

/-- `\d{1,2} sep \d{1,2} sep \d{2,4}` where `sep` is the slash-or-dash
class — the date shape the statement patterns share. -/
def dateShape : RE := seqRE [d12, RE.sym sepCl, d12, RE.sym sepCl, d24]

/-- `[\d,]+\.\d{2}` — the unsigned amount shape. -/
def amountShape : RE :=
  seqRE [RE.rep false 1 none digCommaCl, RE.sym (fun c => c = '.'), d2]

/-- Prioritized alternation of a list of regexes. -/
def altsRE : List RE → RE
  | [] => RE.emp
  | [r] => r
  | r :: t => RE.alt r (altsRE t)

/-! ## The `datetime.strptime` model

CPython's `_strptime` compiles a format string to one regex (with
`re.IGNORECASE`), takes the priority match anchored at the start,
rejects the parse when unconverted data remains, and then validates the
extracted fields by constructing a `datetime` (which checks the day
against the month length).  Only the directives the extractor uses are
modelled.  Capture-group roles: 1 = numeric month, 2 = day,
3 = four-digit year, 4 = month name, 5 = two-digit year. -/

inductive FTok where
  /-- `%m`, compiled to `1[0-2]|0[1-9]|[1-9]`. -/
  | dirM : FTok
  /-- `%d`, compiled to `3[01]|[12]\d|0[1-9]|[1-9]`. -/
  | dirD : FTok
  /-- `%y`, exactly two digits. -/
  | dirY2 : FTok
  /-- `%Y`, exactly four digits. -/
  | dirY4 : FTok
  /-- `%B`, a full month name (case-insensitive). -/
  | dirBfull : FTok
  /-- `%b`, an abbreviated month name (case-insensitive). -/
  | dirBabbr : FTok
  /-- A literal character of the format. -/
  | lit : Char → FTok
  /-- Whitespace in the format, compiled to `\s+`. -/
  | fws : FTok

/-- Full month names with their numbers, longest first as `_strptime`
orders its alternation (no full name is a prefix of another, so only the
listing order is at stake). -/
def monthNamesFull : List (String × Nat) :=
  [("september", 9), ("february", 2), ("november", 11), ("december", 12),
   ("january", 1), ("october", 10), ("august", 8), ("march", 3),
   ("april", 4), ("june", 6), ("july", 7), ("may", 5)]

/-- Abbreviated month names with their numbers (all three letters long). -/
def monthNamesAbbr : List (String × Nat) :=
  [("jan", 1), ("feb", 2), ("mar", 3), ("apr", 4), ("may", 5), ("jun", 6),
   ("jul", 7), ("aug", 8), ("sep", 9), ("oct", 10), ("nov", 11), ("dec", 12)]

/-- `1[0-2]|0[1-9]|[1-9]` — the `%m` component regex. -/
def monthNumRE : RE :=
  altsRE
    [RE.cat (RE.sym (fun c => c = '1')) (RE.sym (fun c => '0' ≤ c ∧ c ≤ '2')),
     RE.cat (RE.sym (fun c => c = '0')) (RE.sym (fun c => '1' ≤ c ∧ c ≤ '9')),
     RE.sym (fun c => '1' ≤ c ∧ c ≤ '9')]

/-- `3[01]|[12]\d|0[1-9]|[1-9]` — the `%d` component regex. -/
def dayNumRE : RE :=
  altsRE
    [RE.cat (RE.sym (fun c => c = '3')) (RE.sym (fun c => c = '0' || c = '1')),
     RE.cat (RE.sym (fun c => c = '1' || c = '2')) (RE.sym digCl),
     RE.cat (RE.sym (fun c => c = '0')) (RE.sym (fun c => '1' ≤ c ∧ c ≤ '9')),
     RE.sym (fun c => '1' ≤ c ∧ c ≤ '9')]

/-- Compile one format directive to its regex. -/
def tokRE : FTok → RE
  | .dirM => RE.grp 1 monthNumRE
  | .dirD => RE.grp 2 dayNumRE
  | .dirY2 => RE.grp 5 d2
  | .dirY4 => RE.grp 3 d4
  | .dirBfull => RE.grp 4 (altsRE (monthNamesFull.map (fun p => litCiRE p.1)))
  | .dirBabbr => RE.grp 4 (altsRE (monthNamesAbbr.map (fun p => litCiRE p.1)))
  | .lit c => RE.sym (fun x => x = c)
  | .fws => wsPlus

/-- Compile a whole format. -/
def fmtToRE (toks : List FTok) : RE := seqRE (toks.map tokRE)

/-- A calendar date, as `datetime.date` carries it. -/
structure Date where
  year : Nat
  month : Nat
  day : Nat
deriving DecidableEq, Repr

/-- Gregorian leap year, as `datetime` computes it. -/
def isLeap (y : Nat) : Bool := y % 4 = 0 && (y % 100 ≠ 0 || y % 400 = 0)

/-- Days in a month, as `datetime` validates the day field. -/
def daysInMonth (y m : Nat) : Nat :=
  if m = 2 then (if isLeap y then 29 else 28)
  else if m = 4 || m = 6 || m = 9 || m = 11 then 30
  else 31

/-- Look a captured month name up (case-insensitively). -/
def monthFromName (s : String) : Option Nat :=
  ((monthNamesFull ++ monthNamesAbbr).find?
      (fun p => p.1 = String.mk (s.data.map pyCharLower))).map (fun p => p.2)

/-- `datetime.strptime(s, fmt).date()` as an `Option`: `none` is the
`ValueError` the source always catches.  Matches the priority match at
position 0, requires full consumption ("unconverted data remains"
otherwise), applies the two-digit-year pivot (00–68 maps into 2000–2068),
and validates ranges as `datetime` construction does. -/
def strptimeDate (toks : List FTok) (s : String) : Option Date :=
  let t := s.data
  match reMat (fmtToRE toks) t 0 [] (fun j g => some (j, g)) with
  | none => none
  | some (j, g) =>
    if j ≠ t.length then none
    else
      let mo : Option Nat :=
        match capStr t g 1 with
        | some ds => some (natOfDigits ds.data)
        | none => (capStr t g 4).bind monthFromName
      let dy : Option Nat := (capStr t g 2).map (fun ds => natOfDigits ds.data)
      let yr : Option Nat :=
        match capStr t g 3 with
        | some ds => some (natOfDigits ds.data)
        | none =>
          match capStr t g 5 with
          | some ds =>
            let y := natOfDigits ds.data
            some (if y ≤ 68 then y + 2000 else y + 1900)
          | none => none
      match mo, dy, yr with
      | some m, some d, some y =>
        if 1 ≤ y ∧ y ≤ 9999 ∧ 1 ≤ m ∧ m ≤ 12 ∧ 1 ≤ d ∧ d ≤ daysInMonth y m
        then some ⟨y, m, d⟩ else none
      | _, _, _ => none

/-- `'%m/%d/%y'`. -/
def fmtMDy2 : List FTok := [.dirM, .lit '/', .dirD, .lit '/', .dirY2]

/-- `'%m/%d/%Y'`. -/
def fmtMDY4 : List FTok := [.dirM, .lit '/', .dirD, .lit '/', .dirY4]

/-- `'%d/%m/%y'`. -/
def fmtDMy2 : List FTok := [.dirD, .lit '/', .dirM, .lit '/', .dirY2]

/-- `'%d/%m/%Y'`. -/
def fmtDMY4 : List FTok := [.dirD, .lit '/', .dirM, .lit '/', .dirY4]

/-- `'%m-%d-%y'`. -/
def fmtMdDashY2 : List FTok := [.dirM, .lit '-', .dirD, .lit '-', .dirY2]

/-- `'%m-%d-%Y'`. -/
def fmtMdDashY4 : List FTok := [.dirM, .lit '-', .dirD, .lit '-', .dirY4]

/-- `'%d-%m-%Y'`. -/
def fmtDmDashY4 : List FTok := [.dirD, .lit '-', .dirM, .lit '-', .dirY4]

/-- `'%Y-%m-%d'`. -/
def fmtISO : List FTok := [.dirY4, .lit '-', .dirM, .lit '-', .dirD]

/-- `'%Y/%m/%d'`. -/
def fmtISOSlash : List FTok := [.dirY4, .lit '/', .dirM, .lit '/', .dirD]

/-- `'%d-%b-%Y'`. -/
def fmtDbY4 : List FTok := [.dirD, .lit '-', .dirBabbr, .lit '-', .dirY4]

/-- `'%d-%b-%y'`. -/
def fmtDbY2 : List FTok := [.dirD, .lit '-', .dirBabbr, .lit '-', .dirY2]

/-- `'%B %d, %Y'`. -/
def fmtBdY : List FTok := [.dirBfull, .fws, .dirD, .lit ',', .fws, .dirY4]

/-- `'%b %d, %Y'`. -/
def fmtBAbbrdY : List FTok := [.dirBabbr, .fws, .dirD, .lit ',', .fws, .dirY4]

/-- The statement stage's `date_formats` list (source lines 493–497). -/
def stmtFormats : List (List FTok) :=
  [fmtMDy2, fmtMDY4, fmtDMy2, fmtDMY4, fmtMdDashY2, fmtMdDashY4,
   fmtDmDashY4, fmtISO, fmtISOSlash, fmtDbY4, fmtDbY2, fmtBdY, fmtBAbbrdY]

/-- The column stage's `date_formats` list (source lines 369–372). -/
def colFormats : List (List FTok) :=
  [fmtMDy2, fmtMDY4, fmtDMy2, fmtDMY4, fmtMdDashY2, fmtMdDashY4, fmtDmDashY4]

/-- `for fmt in formats: try: return strptime(s, fmt); except: continue` —
first format that parses wins. -/
def tryParseFirst (fmts : List (List FTok)) (s : String) : Option Date :=
  firstSome (fun f => strptimeDate f s) fmts

/-- `float(s.replace(',', ''))` in integer cents, for the amount strings
the statement and column stages capture.  Every such string matches
`[\d,]+\.\d{2}`, so after dropping commas it is digits, one dot, two
digits, and `float` cannot raise; on any other input this model returns
0 (such inputs never reach it). -/
def parseAmountCentsNat (s : String) : Nat :=
  let t := s.data.filter (fun c => c ≠ ',')
  let ip := t.takeWhile digCl
  let rest := t.dropWhile digCl
  match rest with
  | ['.', f1, f2] =>
    if digCl f1 && digCl f2 then natOfDigits ip * 100 + natOfDigits [f1, f2]
    else 0
  | [] => natOfDigits ip * 100
  | _ => 0

/-- The captured amount as signed cents (nonnegative by construction:
the capture groups admit no sign). -/
def parseAmountCents (s : String) : Int := (parseAmountCentsNat s : Int)

/-- The amount of a captured magnitude is never negative. -/
theorem parseAmountCents_nonneg (s : String) : 0 ≤ parseAmountCents s :=
  Int.ofNat_nonneg _

/-- `float` in cents for the single-receipt total capture
`\d+(?:[.,]\d{3})*[.,]\d{2}`: with commas dropped the text can still hold
several dots (European grouping), where `float` raises `ValueError` in
the source — uncaught there; this model returns `none` in that corner,
which no claim exercises. -/
def parseReceiptTotalCents (s : String) : Option Nat :=
  let t := s.data.filter (fun c => c ≠ ',')
  let ip := t.takeWhile digCl
  let rest := t.dropWhile digCl
  match rest with
  | ['.', f1, f2] =>
    if digCl f1 && digCl f2 then some (natOfDigits ip * 100 + natOfDigits [f1, f2])
    else none
  | [] => some (natOfDigits ip * 100)
  | _ => none

/-! ## The regex stage (`parse_statement_data`, source lines 405–560)

The nine statement patterns, transcribed in source order.  `lazyDot`
is `(.+?)`. -/

/-- `(.+?)` — the lazy description group body. -/
def lazyDot : RE := RE.rep true 1 none dotCl

/-- `\d{4} sep \d{1,2} sep \d{1,2}` — the ISO-style date shape. -/
def isoShape : RE := seqRE [d4, RE.sym sepCl, d12, RE.sym sepCl, d12]

/-- `[A-Za-z]+\s+\d{1,2},?\s+\d{4}` — the month-name date shape. -/
def monthNameShape : RE :=
  seqRE [RE.rep false 1 none alphaCl, wsPlus, d12, optRE (RE.sym (fun c => c = ',')),
         wsPlus, d4]

/-- A literal pipe. -/
def pipeRE : RE := RE.sym (fun c => c = '|')

/-- Pattern 1: two dates, description, amount at end of line. -/
def pat1 : RE :=
  seqRE [RE.grp 1 dateShape, wsPlus, dateShape, wsPlus, RE.grp 2 lazyDot, wsPlus,
         RE.grp 3 amountShape, wsStar, RE.eos]

/-- Pattern 2: two dates, description, two-plus spaces, amount. -/
def pat2 : RE :=
  seqRE [RE.grp 1 dateShape, wsPlus, dateShape, wsPlus, RE.grp 2 lazyDot,
         wsTwoPlus, RE.grp 3 amountShape]

/-- Pattern 3: date, description, amount at end of line. -/
def pat3 : RE :=
  seqRE [RE.grp 1 dateShape, wsPlus, RE.grp 2 lazyDot, wsPlus,
         RE.grp 3 amountShape, RE.eos]

/-- Pattern 4: date, description, pipe, amount. -/
def pat4 : RE :=
  seqRE [RE.grp 1 dateShape, wsPlus, RE.grp 2 lazyDot, wsStar, pipeRE, wsStar,
         RE.grp 3 amountShape]

/-- Pattern 5: ISO-style date, description, amount at end of line. -/
def pat5 : RE :=
  seqRE [RE.grp 1 isoShape, wsPlus, RE.grp 2 lazyDot, wsPlus,
         RE.grp 3 amountShape, RE.eos]

/-- Pattern 6: pipe-separated table row. -/
def pat6 : RE :=
  seqRE [RE.grp 1 dateShape, wsStar, pipeRE, wsStar, RE.grp 2 lazyDot, wsStar,
         pipeRE, wsStar, RE.grp 3 amountShape]

/-- Pattern 7: date, description, two-plus spaces, amount at end of line. -/
def pat7 : RE :=
  seqRE [RE.grp 1 dateShape, wsPlus, RE.grp 2 lazyDot, wsTwoPlus,
         RE.grp 3 amountShape, wsStar, RE.eos]

/-- Pattern 8: month-name date, description, amount at end of line. -/
def pat8 : RE :=
  seqRE [RE.grp 1 monthNameShape, wsPlus, RE.grp 2 lazyDot, wsPlus,
         RE.grp 3 amountShape, wsStar, RE.eos]

/-- Pattern 9: month-name date, description, two-plus spaces, amount. -/
def pat9 : RE :=
  seqRE [RE.grp 1 monthNameShape, wsPlus, RE.grp 2 lazyDot, wsTwoPlus,
         RE.grp 3 amountShape]

/-- The ordered pattern list (source lines 431–450). -/
def statementPatterns : List RE := [pat1, pat2, pat3, pat4, pat5, pat6, pat7, pat8, pat9]

/-! ### Description cleanup (source lines 529–545) -/

/-- Leading transaction-type words, `re.sub` with `^` anchor and
IGNORECASE (source line 532). -/
def cleanPrefixRE : RE :=
  seqRE [RE.bos,
         RE.grp 1 (altsRE [litCiRE "PURCHASE", litCiRE "PAYMENT",
                           litCiRE "DEBIT", litCiRE "CREDIT"]),
         wsPlus]

/-- Optional third date component, `(?:\s*[` sep `]\s*\d{2,4})?`. -/
def optThird : RE := optRE (seqRE [wsStar, RE.sym sepCl, wsStar, d24])

/-- `POST` followed by a date, `\b POST \s* date`, IGNORECASE (source line 536). -/
def postDateRE : RE :=
  seqRE [RE.wb, litCiRE "POST", wsStar, d12, wsStar, RE.sym sepCl, wsStar, d12, optThird]

/-- A date followed by `POST`, IGNORECASE (source line 538). -/
def datePostRE : RE :=
  seqRE [d12, wsStar, RE.sym sepCl, wsStar, d12, optThird, wsPlus, litCiRE "POST"]

/-- Trailing bare date, `\s+\d{1,2} sep \d{1,2}(?: sep \d{2,4})?\s*$`
(source line 540, no IGNORECASE — no letters anyway). -/
def trailingDateRE : RE :=
  seqRE [wsPlus, d12, RE.sym sepCl, d12, optRE (seqRE [RE.sym sepCl, d24]), wsStar, RE.eos]

/-- A standalone `POST` token, `\b POST \b`, IGNORECASE (source line 542). -/
def postAloneRE : RE := seqRE [RE.wb, litCiRE "POST", RE.wb]

/-- The full description cleanup of the regex stage: strip, five `re.sub`
passes, whitespace collapse, strip (source lines 530–545, in order). -/
def cleanDesc (desc : String) : String :=
  let s := pyStrip desc
  let s := reSubAll cleanPrefixRE "" s
  let s := reSubAll postDateRE "" s
  let s := reSubAll datePostRE "" s
  let s := reSubAll trailingDateRE "" s
  let s := reSubAll postAloneRE "" s
  let s := reSubAll wsPlus " " s
  pyStrip s

/-! ### Per-line transaction recording -/

/-- `'CR' in line_upper or 'CREDIT' in line_upper or 'PAYMENT' in
description.upper()` (source line 512) — a raw substring test. -/
def isCreditLine (line desc : String) : Bool :=
  strContains (pyUpper line) "CR" || strContains (pyUpper line) "CREDIT" ||
    strContains (pyUpper desc) "PAYMENT"

/-- A transaction as the extractor emits it; `statementInfo` models the
`_statement_info` key attached to the first transaction.  Amounts are in
integer cents. -/
structure SInfo where
  total : Option Int := none
  previous_balance : Option Int := none
  new_balance : Option Int := none
deriving DecidableEq, Repr

structure Tx where
  date : Option Date
  description : String
  amount : Int
  statementInfo : Option SInfo := none
deriving DecidableEq, Repr

/-- The sign normalization of source lines 514–524: a credit is made
nonnegative (`abs` when below zero), a charge nonpositive (negated when
above zero). -/
def normAmount (isCr : Bool) (cents : Int) : Int :=
  if isCr then (if cents < 0 then |cents| else cents)
  else (if cents > 0 then -cents else cents)

/-- The body of the pattern loop once a pattern matched (source lines
489–556): parse the date candidate, parse the amount and normalize its
sign against the credit indicators, clean the description, and record
only when the date parsed and the cleaned description is nonempty.  The
`float` call on the captured amount cannot raise (its capture matches
`[\d,]+\.\d{2}`), so the `except: continue` around it is unreachable and
not modelled. -/
def processMatch (line dateStr desc amtStr : String) : Option Tx :=
  let parsedDate := tryParseFirst stmtFormats dateStr
  let cents := parseAmountCents amtStr
  let amount : Int := normAmount (isCreditLine line desc) cents
  let dc := cleanDesc desc
  match parsedDate with
  | some d => if dc ≠ "" then some { date := some d, description := dc, amount := amount } else none
  | none => none

/-- One pattern's attempt at a line: `re.search(pattern, line.strip())`,
then the recording body; `none` both when the pattern does not match and
when the matched groups fail the recording checks (in either case the
source moves on to the next pattern). -/
def recordAt (line : String) (p : RE) : Option Tx :=
  let t := (pyStrip line).data
  match reSearchFrom p t 0 with
  | none => none
  | some (_, _, caps) =>
    match capStr t caps 1, capStr t caps 2, capStr t caps 3 with
    | some ds, some de, some am => processMatch line ds de am
    | _, _, _ => none

/-- The pattern loop over a line: the first pattern that matches *and*
records wins (`break` happens only after a successful append). -/
def processLine (line : String) : Option Tx :=
  firstSome (recordAt line) statementPatterns

/-! ### The line scan (source lines 452–560) -/

/-- The header words whose presence skips a line (source line 479). -/
def headerWords : List String :=
  ["TRANSACTION", "DATE", "DESCRIPTION", "AMOUNT", "REFERENCE", "POST"]

/-- `r'([\d,]+\.\d{2})'` searched in a totals line (source line 463). -/
def amountSearchRE : RE := RE.grp 1 amountShape

/-- Record a statement total/balance line into `statement_info`
(source lines 462–472). -/
def updateSInfo (si : SInfo) (line : String) : SInfo :=
  let lu := pyUpper line
  match reSearchFrom amountSearchRE line.data 0 with
  | some (_, _, caps) =>
    match capStr line.data caps 1 with
    | some aStr =>
      let amount := parseAmountCents aStr
      if strContains lu "PREVIOUS" then { si with previous_balance := some amount }
      else if strContains lu "NEW" || strContains lu "CURRENT" then
        { si with new_balance := some amount }
      else if strContains lu "TOTAL" && !(strContains lu "PAYMENT") then
        { si with total := some amount }
      else si
    | none => si
  | none => si

/-- `'TOTAL' in line_upper or 'BALANCE' in line_upper` (source line 462). -/
def isTotalBalanceLine (line : String) : Bool :=
  strContains (pyUpper line) "TOTAL" || strContains (pyUpper line) "BALANCE"

/-- The skip conditions of source lines 475–480: a stripped length below
10 (which covers the empty line) or a header word in the uppercased
line. -/
def isSkippedLine (line : String) : Bool :=
  (pyStrip line).data.length < 10 ||
    headerWords.any (fun h => strContains (pyUpper line) h)

/-- One iteration of `for line in lines` (source lines 453–560). -/
def scanStep (st : SInfo × List Tx) (line : String) : SInfo × List Tx :=
  if isTotalBalanceLine line then (updateSInfo st.1 line, st.2)
  else if isSkippedLine line then st
  else
    match processLine line with
    | some tx => (st.1, st.2 ++ [tx])
    | none => st

/-- The whole line scan over a list of lines. -/
def regexScanLines (ls : List String) : SInfo × List Tx :=
  ls.foldl scanStep (⟨none, none, none⟩, [])

/-- The regex stage: scan `ocr_text.split('\n')`, yielding the statement
info and the recorded transactions. -/
def regexScan (text : String) : SInfo × List Tx :=
  regexScanLines (splitLines text)

/-! ## The column stage (`_parse_column_format`, source lines 329–403) -/

/-- `re.match(r, s)` viewed as a Boolean: a match anchored at position 0. -/
def reMatchAt0 (r : RE) (s : String) : Bool :=
  (reMat r s.data 0 [] (fun j g => some (j, g))).isSome

/-- `r'^\d{1,2} sep \d{1,2} sep \d{2,4}$'` (source line 344). -/
def colDateRE : RE := seqRE [RE.bos, dateShape, RE.eos]

/-- `r'^[\d,]+\.\d{2}$'` (source line 345). -/
def colAmtRE : RE := seqRE [RE.bos, amountShape, RE.eos]

/-- The skip words of the description bucket (source line 355). -/
def columnSkipWords : List String :=
  ["TOTAL", "BALANCE", "TRANSACTION", "DATE", "DESCRIPTION", "AMOUNT"]

/-- `[line.strip() for line in ocr_text.split('\n') if line.strip()]`. -/
def colLines (text : String) : List String :=
  ((splitLines text).map pyStrip).filter (fun l => l ≠ "")

/-- The elif chain of source lines 347–356, one predicate per bucket. -/
def colIsDate (l : String) : Bool := reMatchAt0 colDateRE l

def colIsAmt (l : String) : Bool := !colIsDate l && reMatchAt0 colAmtRE l

def colIsDesc (l : String) : Bool :=
  !colIsDate l && !reMatchAt0 colAmtRE l && l.data.length > 5 &&
    !(columnSkipWords.any (fun w => strContains (pyUpper l) w))

/-- The three buckets `(dates, descriptions, amounts)`; filtering each
bucket separately from the same ordered line list is equivalent to the
source's single pass through the elif chain. -/
def columnBuckets (text : String) : List String × List String × List String :=
  let ls := colLines text
  (ls.filter colIsDate, ls.filter colIsDesc, ls.filter colIsAmt)

/-- Truthiness of the `date_str` local (a nonempty string). -/
def dateStrTruthy : Option String → Bool
  | some ds => ds ≠ ""
  | none => false

/-- One iteration of the pairing loop (source lines 374–401):
`dates[i] if i < len(dates) else (dates[0] if dates else None)`, the
column date formats, a forced-negative amount, and the
`if description and (parsed_date or date_str)` recording guard. -/
def colItem (dates descs amts : List String) (i : Nat) : Option Tx :=
  let dateStr : Option String :=
    match dates.get? i with
    | some d => some d
    | none => dates.get? 0
  let parsedDate : Option Date := dateStr.bind (tryParseFirst colFormats)
  let amount : Int := -parseAmountCents (amts.getD i "")
  let description := pyStrip (descs.getD i "")
  if !description.isEmpty && (parsedDate.isSome || dateStrTruthy dateStr) then
    some { date := parsedDate, description := description, amount := amount }
  else none

/-- `_parse_column_format`: empty amounts or descriptions short-circuit
to `[]`; otherwise pair the first `min` entries positionally. -/
def parse_column_format (text : String) : List Tx :=
  let b := columnBuckets text
  let dates := b.1
  let descs := b.2.1
  let amts := b.2.2
  if amts.isEmpty || descs.isEmpty then []
  else (List.range (min descs.length amts.length)).filterMap (colItem dates descs amts)

/-! ## The single-receipt fallback (source lines 570–624) -/

/-- The whole-text date patterns with their formats (source lines
576–580): month-name with a required comma, then the slash/dash shape
with `'%m/%d/%Y'`, then the ISO shape with `'%Y-%m-%d'`. -/
def receiptMonthNameRE : RE :=
  RE.grp 1 (seqRE [RE.rep false 1 none alphaCl, wsPlus, d12, RE.sym (fun c => c = ','),
                   wsPlus, d4])

def receiptDatePatterns : List (RE × List FTok) :=
  [(receiptMonthNameRE, fmtBdY),
   (RE.grp 1 dateShape, fmtMDY4),
   (RE.grp 1 isoShape, fmtISO)]

/-- `for pattern, fmt in date_patterns: ...` — first searched match that
also parses wins; a match whose parse fails falls through to the next
pattern (source lines 582–591). -/
def receiptDate (text : String) : Option Date :=
  firstSome
    (fun pf =>
      match reSearchFrom pf.1 text.data 0 with
      | some (_, _, caps) => (capStr text.data caps 1).bind (strptimeDate pf.2)
      | none => none)
    receiptDatePatterns

/-- `[.,]`. -/
def dotCommaCl (c : Char) : Bool := c = '.' || c = ','

/-- The keyword-anchored total pattern (source line 595), IGNORECASE;
the unbounded group `(?:[.,]\d{3})*` is unrolled to the subject length. -/
def receiptTotalRE (n : Nat) : RE :=
  seqRE [altsRE [litCiRE "TOTAL", litCiRE "AMOUNT",
                 seqRE [litCiRE "Grand", wsStar, litCiRE "Total"],
                 seqRE [litCiRE "Total", wsStar, litCiRE "Due"]],
         RE.rep false 0 none (fun c => pyWS c || c = ':' || c = '$'),
         RE.grp 1 (seqRE [RE.rep false 1 none digCl,
                          starUpTo n (seqRE [RE.sym dotCommaCl, RE.rep false 3 (some 3) digCl]),
                          RE.sym dotCommaCl, d2])]

/-- `total_amount = -float(match.group(1).replace(',', ''))`
(source lines 594–598). -/
def receiptTotal (text : String) : Option Int :=
  match reSearchFrom (receiptTotalRE text.data.length) text.data 0 with
  | some (_, _, caps) =>
    match capStr text.data caps 1 with
    | some aStr => (parseReceiptTotalCents aStr).map (fun c => -(c : Int))
    | none => none
  | none => none

/-- `r'[A-Z]{2,3}\s*:'` (source line 608). -/
def merchantLabelRE : RE :=
  seqRE [RE.rep false 2 (some 3) upperCl, wsStar, RE.sym (fun c => c = ':')]

/-- `re.search(r'^\d+', s)` succeeds exactly when `s` starts with a digit. -/
def startsWithDigit (s : String) : Bool :=
  match s.data with
  | c :: _ => digCl c
  | [] => false

/-- The merchant-candidate conditions of source lines 606–612. -/
def merchantOk (ls : String) : Bool :=
  ls.data.length > 10 && !startsWithDigit ls &&
    !(reSearchFrom merchantLabelRE ls.data 0).isSome &&
    !strContains (pyUpper ls) "INVOICE" && !strContains (pyUpper ls) "RECEIPT" &&
    !strContains (pyUpper ls) "TRANS" && !strContains (pyUpper ls) "TOTAL"

/-- `for line in lines[:15]` over the *raw* split lines (source line 603);
the first acceptable stripped line is the merchant. -/
def receiptMerchant (text : String) : Option String :=
  firstSome
    (fun line =>
      let ls := pyStrip line
      if merchantOk ls then some ls else none)
    ((splitLines text).take 15)

/-- The single-receipt fallback: emit one transaction only when date,
total and merchant were all found and the (negated) total is truthy
(source lines 617–624; `-0.0` is falsy in Python). -/
def singleReceipt (text : String) : List Tx :=
  match receiptDate text, receiptTotal text, receiptMerchant text with
  | some d, some tc, some m =>
    if tc ≠ 0 then [{ date := some d, description := m, amount := tc }] else []
  | _, _, _ => []

/-! ## Statement totals and the fallback chain (source lines 562–638, 728–795) -/

/-- Python truthiness of an optional float field of `statement_info`. -/
def truthyOpt : Option Int → Bool
  | none => false
  | some v => v != 0

/-- `sum(abs(t['amount']) for t in transactions)`. -/
def sumAbs (txs : List Tx) : Int := (txs.map (fun t => |t.amount|)).sum

/-- `transactions[0]['_statement_info'] = statement_info`. -/
def attachInfo (si : SInfo) : List Tx → List Tx
  | [] => []
  | t :: rest => { t with statementInfo := some si } :: rest

/-- Source lines 626–632: synthesize a missing (falsy) total as the sum
of absolute amounts, then attach the info object to the first
transaction when any of its values is truthy. -/
def finalize (txs : List Tx) (si : SInfo) : List Tx :=
  let si' := if !truthyOpt si.total && !txs.isEmpty then
      { si with total := some (sumAbs txs) }
    else si
  if !txs.isEmpty &&
      (truthyOpt si'.total || truthyOpt si'.previous_balance || truthyOpt si'.new_balance) then
    attachInfo si' txs
  else txs

/-- The three-stage fallback inside `parse_statement_data` (source lines
562–572), with the stage bodies abstracted so that non-invocation of a
later stage is expressible by quantifying over them. -/
def stageTxsWith (rf : String → SInfo × List Tx) (cf sf : String → List Tx)
    (text : String) : List Tx :=
  let t0 := (rf text).2
  let t1 := if t0.length = 0 then (let c := cf text; if c.length > 0 then c else t0) else t0
  if t1.length = 0 then sf text else t1

def parse_statement_data_with (rf : String → SInfo × List Tx) (cf sf : String → List Tx)
    (text : String) : List Tx :=
  finalize (stageTxsWith rf cf sf text) (rf text).1

/-- The transactions after the regex/column/single-receipt cascade. -/
def stageTxs (text : String) : List Tx :=
  stageTxsWith regexScan parse_column_format singleReceipt text

/-- `parse_statement_data` — the `line_items` list it returns. -/
def parse_statement_data (text : String) : List Tx :=
  parse_statement_data_with regexScan parse_column_format singleReceipt text

/-- The outcome of `extract_with_gemini_text` as the caller observes it:
`ok items` for a `(data, None)` return (an `ok []` covers a missing or
empty `line_items`), `err` for a `(None, error)` return. -/
inductive GemResult where
  | ok : List Tx → GemResult
  | err : GemResult
deriving DecidableEq, Repr

/-- The result of `extract_receipt_data`: the parsed line items and the
`_extraction_method` tag. -/
structure ParsedData where
  lineItems : List Tx
  extractionMethod : String
deriving DecidableEq, Repr

/-- Steps 2–3 of `extract_receipt_data` (source lines 770–795): use the
AI result only when it carries at least one line item, else fall back to
`parse_statement_data` and tag the result `'ocr'`.  The statement parser
is a parameter so that its non-invocation on the AI path is expressible. -/
def extract_receipt_data_with (psd : String → List Tx) (gem : GemResult)
    (text : String) : ParsedData :=
  match gem with
  | .ok items =>
    if items.length > 0 then { lineItems := items, extractionMethod := "gemini" }
    else { lineItems := psd text, extractionMethod := "ocr" }
  | .err => { lineItems := psd text, extractionMethod := "ocr" }

def extract_receipt_data (gem : GemResult) (text : String) : ParsedData :=
  extract_receipt_data_with parse_statement_data gem text

/-! ## The PDF text extraction (`extract_text_from_pdf`, source lines 125–166) -/

/-- The behaviour of `reader.decrypt(password)`. -/
inductive DecryptOutcome where
  | ok : DecryptOutcome
  | bad : DecryptOutcome
  | raises : String → DecryptOutcome

/-- An abstract PDF input: whether opening it raises, whether it is
encrypted, how decryption behaves per password, whether page extraction
raises, and the text it yields. -/
structure PdfModel where
  readErr : Option String
  encrypted : Bool
  decryptWith : String → DecryptOutcome
  extractErr : Option String
  text : String

/-- Python truthiness of the `password` argument (`None` and `''` are
falsy). -/
def pwTruthy : Option String → Bool
  | none => false
  | some p => p != ""

/-- `extract_text_from_pdf(pdf_path, password)` as `(text?, error?)`. -/
def extract_text_from_pdf (pdfSupport : Bool) (pdf : PdfModel)
    (password : Option String) : Option String × Option String :=
  if !pdfSupport then
    (none, some "PDF support not available. Install pdfplumber and pypdf.")
  else
    match pdf.readErr with
    | some m => (none, some ("PDF extraction error: " ++ m))
    | none =>
      let proceed : Option String × Option String :=
        match pdf.extractErr with
        | some m => (none, some ("PDF extraction error: " ++ m))
        | none => (some pdf.text, none)
      if pdf.encrypted then
        if !pwTruthy password then (none, some "PDF_PASSWORD_REQUIRED")
        else
          match pdf.decryptWith (password.getD "") with
          | .bad => (none, some "Invalid password")
          | .raises m => (none, some ("Password error: " ++ m))
          | .ok => proceed
      else proceed

/-- The PDF branch of `extract_receipt_data` (source lines 756–763): the
sentinel is singled out and propagated verbatim; any other error is
returned as-is; `none` means extraction proceeds with the text. -/
def pdfStepError (pdfSupport : Bool) (pdf : PdfModel) (password : Option String) :
    Option String :=
  match extract_text_from_pdf pdfSupport pdf password with
  | (_, some err) => some (if err = "PDF_PASSWORD_REQUIRED" then "PDF_PASSWORD_REQUIRED" else err)
  | (_, none) => none

/-! ## General lemmas about the combinators -/

/-- `firstSome` yields `none` exactly when every element does. -/
theorem firstSome_eq_none_iff {α β} {f : α → Option β} {l : List α} :
    firstSome f l = none ↔ ∀ a ∈ l, f a = none := by
  induction l with
  | nil => simp [firstSome]
  | cons a t ih =>
    cases h : f a with
    | some b => simp [firstSome, h]
    | none => simp [firstSome, h, ih]

/-- `firstSome` yields `some b` exactly when some element does and every
earlier element yields `none` — the first success wins. -/
theorem firstSome_eq_some_iff {α β} {f : α → Option β} {l : List α} {b : β} :
    firstSome f l = some b ↔
      ∃ l₁ a l₂, l = l₁ ++ a :: l₂ ∧ f a = some b ∧ ∀ x ∈ l₁, f x = none := by
  induction l with
  | nil =>
    constructor
    · intro h; exact absurd h (by simp [firstSome])
    · rintro ⟨l₁, a, l₂, habs, -, -⟩
      exact absurd habs (by cases l₁ <;> simp)
  | cons a t ih =>
    cases h : f a with
    | some b' =>
      constructor
      · intro hfs
        have hb : b' = b := by simpa [firstSome, h] using hfs
        refine ⟨[], a, t, rfl, by rw [h, hb], ?_⟩
        intro x hx; exact absurd hx (List.not_mem_nil x)
      · rintro ⟨l₁, c, l₂, heq, hfc, hnone⟩
        cases l₁ with
        | nil =>
          injection heq with h1 h2
          subst h1
          simp [firstSome, hfc]
        | cons x xs =>
          injection heq with h1 h2
          subst h1
          have hx : f a = none := hnone a (by simp)
          rw [h] at hx
          cases hx
    | none =>
      constructor
      · intro hfs
        have hlift : firstSome f t = some b := by simpa [firstSome, h] using hfs
        obtain ⟨l₁, c, l₂, heq, hfc, hnone⟩ := ih.mp hlift
        refine ⟨a :: l₁, c, l₂, by simp [heq], hfc, ?_⟩
        intro x hx
        rcases List.mem_cons.mp hx with rfl | hx
        · exact h
        · exact hnone x hx
      · rintro ⟨l₁, c, l₂, heq, hfc, hnone⟩
        cases l₁ with
        | nil =>
          injection heq with h1 h2
          subst h1
          rw [hfc] at h
          cases h
        | cons x xs =>
          injection heq with h1 h2
          subst h1
          have ht : firstSome f t = some b :=
            ih.mpr ⟨xs, c, l₂, h2, hfc, fun y hy => hnone y (by simp [hy])⟩
          simpa [firstSome, h] using ht

/-- The element a successful `firstSome` comes from is in the list. -/
theorem firstSome_mem {α β} {f : α → Option β} {l : List α} {b : β}
    (h : firstSome f l = some b) : ∃ a ∈ l, f a = some b := by
  obtain ⟨l₁, a, l₂, rfl, hfa, -⟩ := firstSome_eq_some_iff.mp h
  exact ⟨a, by simp, hfa⟩

/-- The head of a `dropWhile` residue fails the predicate. -/
theorem dropWhile_head_false {α} {p : α → Bool} :
    ∀ {l : List α} {x : α} {t : List α}, l.dropWhile p = x :: t → p x = false := by
  intro l
  induction l with
  | nil => intro x t h; simp [List.dropWhile] at h
  | cons a as ih =>
    intro x t h
    by_cases hp : p a
    · rw [List.dropWhile_cons_of_pos hp] at h
      exact ih h
    · rw [List.dropWhile_cons_of_neg hp] at h
      injection h with h1 h2
      subst h1
      simpa using hp

/-- `dropWhile` is idempotent. -/
theorem dropWhile_idem {α} (p : α → Bool) (l : List α) :
    (l.dropWhile p).dropWhile p = l.dropWhile p := by
  cases h : l.dropWhile p with
  | nil => simp
  | cons x t =>
    have hx := dropWhile_head_false h
    rw [List.dropWhile_cons_of_neg (by simp [hx])]

/-- Trimming from the right (reverse, drop, reverse) preserves a list
whose head already fails the predicate failing it still. -/
theorem rdrop_aux {α} {p : α → Bool} (A : List α) (hA : A.dropWhile p = A) :
    ((A.reverse.dropWhile p).reverse).dropWhile p = (A.reverse.dropWhile p).reverse := by
  cases hc : (A.reverse.dropWhile p).reverse with
  | nil => simp [hc]
  | cons x t =>
    have h1 : A.reverse.takeWhile p ++ A.reverse.dropWhile p = A.reverse :=
      List.takeWhile_append_dropWhile ..
    have hform : A = (A.reverse.dropWhile p).reverse ++ (A.reverse.takeWhile p).reverse := by
      have h2 := congrArg List.reverse h1
      rw [List.reverse_append, List.reverse_reverse] at h2
      exact h2.symm
    rw [hc] at hform
    have hAx : A = x :: (t ++ (A.reverse.takeWhile p).reverse) := by
      simpa using hform
    have hx : p x = false := dropWhile_head_false (l := A) (by rw [hA]; exact hAx)
    rw [List.dropWhile_cons_of_neg (by simp [hx])]

/-- Both-sided trimming is idempotent. -/
theorem trimC_trimC (l : List Char) : trimC (trimC l) = trimC l := by
  unfold trimC
  rw [rdrop_aux (p := pyWS) (l.dropWhile pyWS) (dropWhile_idem ..), List.reverse_reverse,
    dropWhile_idem]

/-- `str.strip` is idempotent. -/
theorem pyStrip_idem (s : String) : pyStrip (pyStrip s) = pyStrip s := by
  unfold pyStrip
  exact congrArg String.mk (trimC_trimC s.data)

/-- A `filterMap` whose function succeeds on every element keeps the length. -/
theorem length_filterMap_all_isSome {α β} {f : α → Option β} :
    ∀ {l : List α}, (∀ x ∈ l, (f x).isSome = true) → (l.filterMap f).length = l.length := by
  intro l
  induction l with
  | nil => simp
  | cons a t ih =>
    intro h
    obtain ⟨b, hb⟩ := Option.isSome_iff_exists.mp (h a (by simp))
    rw [List.filterMap_cons_some hb]
    simp [ih (fun x hx => h x (by simp [hx]))]

/-- String append acts as list append on the character data. -/
theorem stringAppendData (a b : String) : (a ++ b).data = a.data ++ b.data := by
  cases a; cases b; rfl

/-! ## Lemmas about the extractor's building blocks -/

/-- Sign behaviour of the normalization step for a nonnegative magnitude. -/
theorem normAmount_sign (c : Int) (h0 : 0 ≤ c) (isCr : Bool) :
    (isCr = true → 0 ≤ normAmount isCr c ∧ (c ≠ 0 → 0 < normAmount isCr c)) ∧
    (isCr = false → normAmount isCr c ≤ 0 ∧ (c ≠ 0 → normAmount isCr c < 0)) := by
  cases isCr with
  | false =>
    refine ⟨fun h => (nomatch h), fun _ => ?_⟩
    by_cases hc : c > 0
    · rw [normAmount, if_neg (by simp), if_pos hc]
      omega
    · rw [normAmount, if_neg (by simp), if_neg hc]
      omega
  | true =>
    refine ⟨fun _ => ?_, fun h => nomatch h⟩
    rw [normAmount, if_pos rfl, if_neg (by omega)]
    omega

/-- `processMatch` records exactly when the date candidate parses and the
cleaned description is nonempty (the amount parse cannot fail). -/
theorem processMatch_ne_none_iff (line dateStr desc amtStr : String) :
    processMatch line dateStr desc amtStr ≠ none ↔
      tryParseFirst stmtFormats dateStr ≠ none ∧ cleanDesc desc ≠ "" := by
  unfold processMatch
  cases hp : tryParseFirst stmtFormats dateStr with
  | none => simp
  | some d =>
    by_cases hdc : cleanDesc desc = ""
    · simp [hdc]
    · simp [hdc]

/-- One pattern's attempt succeeds exactly when the pattern matches the
stripped line and the captured groups pass the recording checks. -/
theorem recordAt_ne_none_iff (line : String) (p : RE) :
    recordAt line p ≠ none ↔
      ∃ st en caps ds de am,
        reSearchFrom p (pyStrip line).data 0 = some (st, en, caps) ∧
        capStr (pyStrip line).data caps 1 = some ds ∧
        capStr (pyStrip line).data caps 2 = some de ∧
        capStr (pyStrip line).data caps 3 = some am ∧
        tryParseFirst stmtFormats ds ≠ none ∧ cleanDesc de ≠ "" := by
  unfold recordAt
  cases hs : reSearchFrom p (pyStrip line).data 0 with
  | none => simp [hs]
  | some res =>
    obtain ⟨st0, en0, caps0⟩ := res
    cases h1 : capStr (pyStrip line).data caps0 1 with
    | none => simp [hs, h1, and_assoc]
    | some ds0 =>
      cases h2 : capStr (pyStrip line).data caps0 2 with
      | none => simp [hs, h1, h2, and_assoc]
      | some de0 =>
        cases h3 : capStr (pyStrip line).data caps0 3 with
        | none => simp [hs, h1, h2, h3, and_assoc]
        | some am0 => simp [hs, h1, h2, h3, and_assoc, processMatch_ne_none_iff]

/-- A line that is no totals line and records nothing leaves the scan
state untouched. -/
theorem scanStep_eq_self (st : SInfo × List Tx) (line : String)
    (hTB : isTotalBalanceLine line = false) (hPL : processLine line = none) :
    scanStep st line = st := by
  simp [scanStep, hTB, hPL]

/-! ## The claims -/

/-- C1 (amended).  Sign normalization in the regex stage: for every
transaction recorded by the pattern loop, when the credit classifier
(`CR`/`CREDIT` in the uppercased line or `PAYMENT` in the uppercased
description) holds the recorded amount is nonnegative — strictly
positive whenever the captured magnitude is nonzero — and otherwise it
is nonpositive — strictly negative whenever the magnitude is nonzero.
(The original claim fails only for a captured magnitude of exactly
`0.00`, which is recorded as 0 on either branch.)  Every transaction the
pattern loop records arises from `processMatch` on some captured
groups. -/
theorem signNormalization :
    (∀ line dateStr desc amtStr tx,
        processMatch line dateStr desc amtStr = some tx →
          (isCreditLine line desc = true →
            0 ≤ tx.amount ∧ (parseAmountCents amtStr ≠ 0 → 0 < tx.amount)) ∧
          (isCreditLine line desc = false →
            tx.amount ≤ 0 ∧ (parseAmountCents amtStr ≠ 0 → tx.amount < 0))) ∧
    (∀ line tx, processLine line = some tx →
        ∃ dateStr desc amtStr, processMatch line dateStr desc amtStr = some tx) := by
  constructor
  · intro line dateStr desc amtStr tx h
    simp only [processMatch] at h
    split at h
    · split at h
      · obtain rfl := Option.some.inj h
        exact normAmount_sign (parseAmountCents amtStr) (parseAmountCents_nonneg amtStr)
          (isCreditLine line desc)
      · exact Option.noConfusion h
    · exact Option.noConfusion h
  · intro line tx h
    obtain ⟨p, -, hp⟩ := firstSome_mem h
    simp only [recordAt] at hp
    split at hp
    · exact Option.noConfusion hp
    · split at hp
      · exact ⟨_, _, _, hp⟩
      · exact Option.noConfusion hp

/-- C1 witness: a concrete non-credit line records a strictly negative
amount, by the theorem applied at its captured groups. -/
theorem signNormalizationWitness :
    ({ date := some ⟨2025, 1, 2⟩, description := "SOMESTORE", amount := -500 } : Tx).amount < 0 :=
  ((signNormalization.1 "01/02/25 SOMESTORE 5.00" "01/02/25" "SOMESTORE" "5.00"
      { date := some ⟨2025, 1, 2⟩, description := "SOMESTORE", amount := -500 }
      (by decide)).2 (by decide)).2 (by decide)

/-- C1 counterexample: the line `01/02/25 SOMESTORE 0.00` has no credit
indicator, yet its recorded amount is 0, not negative as the claim
states. -/
theorem signNormalizationCex :
    processLine "01/02/25 SOMESTORE 0.00" =
      some { date := some ⟨2025, 1, 2⟩, description := "SOMESTORE", amount := 0 } ∧
    isCreditLine "01/02/25 SOMESTORE 0.00" "SOMESTORE" = false ∧
    ¬ ({ date := some ⟨2025, 1, 2⟩, description := "SOMESTORE", amount := 0 } : Tx).amount < 0 :=
  ⟨by decide, by decide, by decide⟩

/-- C9.  Credit classification is a raw substring test on the uppercased
line: every line containing `CR` anywhere is classified as a credit, and
concretely the charge line `01/02/25 MICROSOFT STORE 10.00` (where `CR`
occurs inside `MICROSOFT`) is recorded with a positive amount. -/
theorem crSubstringCredit :
    (∀ line desc, strContains (pyUpper line) "CR" = true → isCreditLine line desc = true) ∧
    processLine "01/02/25 MICROSOFT STORE 10.00" =
      some { date := some ⟨2025, 1, 2⟩, description := "MICROSOFT STORE", amount := 1000 } ∧
    strContains (pyUpper "01/02/25 MICROSOFT STORE 10.00") "CR" = true := by
  refine ⟨?_, by decide, by decide⟩
  intro line desc h
  unfold isCreditLine
  rw [h]
  rfl

/-- C9 witness: the classifier fires on a concrete `CR`-bearing line via
the theorem. -/
theorem crSubstringCreditWitness :
    isCreditLine "XX MICROSOFT" "D" = true :=
  crSubstringCredit.1 "XX MICROSOFT" "D" (by decide)

/-- C4 (amended).  First-*successful-record*-wins in the regex stage: a
line's recorded transaction comes from the earliest pattern that both
matches and passes the recording checks; a pattern that matches but
fails the checks (unparsable date or empty cleaned description) does not
stop the loop — later patterns are still attempted.  (The original
first-match-wins claim is refuted by `firstMatchRecordWinsCex`.) -/
theorem firstMatchRecordWins (line : String) (tx : Tx) :
    processLine line = some tx ↔
      ∃ l₁ p l₂, statementPatterns = l₁ ++ p :: l₂ ∧ recordAt line p = some tx ∧
        ∀ q ∈ l₁, recordAt line q = none := by
  unfold processLine
  exact firstSome_eq_some_iff

/-- C4 witness: the concrete line `01/02/25 SOMESTORE 5.00` is recorded
by pattern 3, the first pattern that records on it, by the theorem. -/
theorem firstMatchRecordWinsWitness :
    processLine "01/02/25 SOMESTORE 5.00" =
      some { date := some ⟨2025, 1, 2⟩, description := "SOMESTORE", amount := -500 } :=
  (firstMatchRecordWins "01/02/25 SOMESTORE 5.00"
      { date := some ⟨2025, 1, 2⟩, description := "SOMESTORE", amount := -500 }).mpr
    ⟨[pat1, pat2], pat3, [pat4, pat5, pat6, pat7, pat8, pat9], rfl, by decide, by decide⟩

/-- C4 counterexample: on `99/99/99 2025-01-02 GROCERY 12.50` the
earliest matching pattern is pattern 3 (patterns 1–2 do not match), whose
captured description is `2025-01-02 GROCERY`; yet the recorded
transaction uses the groups of the later pattern 5 (description
`GROCERY`), because pattern 3's date candidate `99/99/99` fails to parse
and the loop moves on — refuting both halves of the claim. -/
theorem firstMatchRecordWinsCex :
    reSearchFrom pat1 (pyStrip "99/99/99 2025-01-02 GROCERY 12.50").data 0 = none ∧
    reSearchFrom pat2 (pyStrip "99/99/99 2025-01-02 GROCERY 12.50").data 0 = none ∧
    reSearchFrom pat3 (pyStrip "99/99/99 2025-01-02 GROCERY 12.50").data 0 =
      some (0, 33, [(3, 28, 33), (2, 9, 27), (1, 0, 8)]) ∧
    capStr (pyStrip "99/99/99 2025-01-02 GROCERY 12.50").data
      [(3, 28, 33), (2, 9, 27), (1, 0, 8)] 2 = some "2025-01-02 GROCERY" ∧
    recordAt "99/99/99 2025-01-02 GROCERY 12.50" pat3 = none ∧
    processLine "99/99/99 2025-01-02 GROCERY 12.50" =
      some { date := some ⟨2025, 1, 2⟩, description := "GROCERY", amount := -1250 } ∧
    cleanDesc "2025-01-02 GROCERY" ≠ "GROCERY" :=
  ⟨by decide, by decide, by decide, by decide, by decide, by decide, by decide⟩

/-- C6 (amended).  Stage-3 recording condition: a line is recorded iff
some pattern matches it whose captured date candidate *successfully
parses* and whose cleaned description is nonempty (a non-null but
unparsable candidate is not enough — see `recordingConditionCex`); a
line that fails is dropped silently, leaving the scan state and the
processing of all other lines unchanged. -/
theorem recordingCondition :
    (∀ line p, recordAt line p ≠ none ↔
        ∃ st en caps ds de am,
          reSearchFrom p (pyStrip line).data 0 = some (st, en, caps) ∧
          capStr (pyStrip line).data caps 1 = some ds ∧
          capStr (pyStrip line).data caps 2 = some de ∧
          capStr (pyStrip line).data caps 3 = some am ∧
          tryParseFirst stmtFormats ds ≠ none ∧ cleanDesc de ≠ "") ∧
    (∀ line, processLine line = none ↔ ∀ p ∈ statementPatterns, recordAt line p = none) ∧
    (∀ st line, isTotalBalanceLine line = false → processLine line = none →
        scanStep st line = st) ∧
    (∀ pre post line, isTotalBalanceLine line = false → processLine line = none →
        regexScanLines (pre ++ line :: post) = regexScanLines (pre ++ post)) := by
  refine ⟨recordAt_ne_none_iff, ?_, scanStep_eq_self, ?_⟩
  · intro line
    unfold processLine
    exact firstSome_eq_none_iff
  · intro pre post line hTB hPL
    unfold regexScanLines
    rw [List.foldl_append, List.foldl_append, List.foldl_cons,
      scanStep_eq_self _ _ hTB hPL]

/-- C6 witness: a concrete all-digit line records nothing and leaves the
scan state unchanged, by the theorem. -/
theorem recordingConditionWitness :
    scanStep (⟨none, none, none⟩, []) "0000000000" = (⟨none, none, none⟩, []) :=
  recordingCondition.2.2.1 (⟨none, none, none⟩, []) "0000000000" (by decide) (by decide)

/-- C6 counterexample: on `99/99/99 SOMEMERCHANT 10.00` pattern 3
captures the non-null date candidate `99/99/99` and a nonempty cleaned
description, yet no transaction is recorded (the candidate fails to
parse), refuting the claim that a candidate string plus a nonempty
description suffice. -/
theorem recordingConditionCex :
    reSearchFrom pat3 (pyStrip "99/99/99 SOMEMERCHANT 10.00").data 0 =
      some (0, 27, [(3, 22, 27), (2, 9, 21), (1, 0, 8)]) ∧
    capStr (pyStrip "99/99/99 SOMEMERCHANT 10.00").data
      [(3, 22, 27), (2, 9, 21), (1, 0, 8)] 1 = some "99/99/99" ∧
    capStr (pyStrip "99/99/99 SOMEMERCHANT 10.00").data
      [(3, 22, 27), (2, 9, 21), (1, 0, 8)] 2 = some "SOMEMERCHANT" ∧
    cleanDesc "SOMEMERCHANT" ≠ "" ∧
    processLine "99/99/99 SOMEMERCHANT 10.00" = none :=
  ⟨by decide, by decide, by decide, by decide, by decide⟩

/-- Core of the column-pairing length count, over arbitrary buckets whose
date entries are nonempty and whose description entries strip to
nonempty strings (both hold for the buckets the classifier builds). -/
theorem colPairing_gen (dates descs amts : List String)
    (hD : ∀ d ∈ dates, d ≠ "")
    (hE : ∀ e ∈ descs, pyStrip e ≠ "") :
    (if amts.isEmpty || descs.isEmpty then ([] : List Tx)
     else (List.range (min descs.length amts.length)).filterMap
       (colItem dates descs amts)).length =
      if dates = [] then 0 else min descs.length amts.length := by
  cases amts with
  | nil => simp
  | cons a as =>
    cases descs with
    | nil => simp
    | cons e es =>
      rw [if_neg (by simp)]
      cases dates with
      | nil =>
        have hnone : ∀ i ∈ List.range (min (e :: es).length (a :: as).length),
            colItem [] (e :: es) (a :: as) i = none := by
          intro i _
          simp [colItem, dateStrTruthy]
        rw [List.filterMap_eq_nil_iff.mpr hnone]
        simp
      | cons t0 ts =>
        have hsome : ∀ i ∈ List.range (min (e :: es).length (a :: as).length),
            (colItem (t0 :: ts) (e :: es) (a :: as) i).isSome = true := by
          intro i hi
          rw [List.mem_range] at hi
          have hie : i < (e :: es).length := lt_of_lt_of_le hi (Nat.min_le_left _ _)
          have hdmem : (e :: es).getD i "" ∈ (e :: es) := by
            rw [List.getD_eq_getElem?_getD, List.getElem?_eq_getElem hie]
            simp [List.getElem_mem hie]
          have hdesc : pyStrip ((e :: es).getD i "") ≠ "" := hE _ hdmem
          have hdescb : (pyStrip ((e :: es).getD i "")).isEmpty = false :=
            Bool.eq_false_iff.mpr (fun hb => hdesc ((String.isEmpty_iff _).mp hb))
          unfold colItem
          cases hg : (t0 :: ts).get? i with
          | some d =>
            have hd : d ≠ "" := hD d (List.get?_mem hg)
            simp [hg, dateStrTruthy, hd, ← List.getD_eq_getElem?_getD, hdescb]
          | none =>
            have hd : t0 ≠ "" := hD t0 (by simp)
            simp [hg, dateStrTruthy, hd, ← List.getD_eq_getElem?_getD, hdescb]
        rw [length_filterMap_all_isSome hsome, List.length_range,
          if_neg (by simp)]

/-- C5 (amended).  Column pairing bound: the column stage's output
length is `min(len(descriptions), len(amounts))` whenever at least one
bare-date line was classified, and 0 when the dates bucket is empty
(each pairing then fails the `parsed_date or date_str` guard); it is
never longer than the minimum.  (The unconditional equality of the
original claim is refuted by `columnPairingCex`.) -/
theorem columnPairingLength (text : String) :
    (parse_column_format text).length =
      if (columnBuckets text).1 = [] then 0
      else min (columnBuckets text).2.1.length (columnBuckets text).2.2.length := by
  have hD : ∀ d ∈ (columnBuckets text).1, d ≠ "" := by
    intro d hd
    have hd' : d ∈ (colLines text).filter colIsDate := hd
    have hl : d ∈ ((splitLines text).map pyStrip).filter (fun l => l ≠ "") :=
      (List.mem_filter.mp hd').1
    exact of_decide_eq_true (List.mem_filter.mp hl).2
  have hE : ∀ e ∈ (columnBuckets text).2.1, pyStrip e ≠ "" := by
    intro e he
    have he' : e ∈ (colLines text).filter colIsDesc := he
    have hl : e ∈ ((splitLines text).map pyStrip).filter (fun l => l ≠ "") :=
      (List.mem_filter.mp he').1
    obtain ⟨hmem, hne⟩ := List.mem_filter.mp hl
    obtain ⟨raw, -, rfl⟩ := List.mem_map.mp hmem
    rw [pyStrip_idem]
    exact of_decide_eq_true hne
  exact colPairing_gen _ _ _ hD hE

/-- C5 counterexample: a text with one description line and one amount
line but no date line yields an empty column-stage result, while
`min(len(descriptions), len(amounts)) = 1`. -/
theorem columnPairingCex :
    parse_column_format "GROCERY STORE\n12.50" = [] ∧
    (columnBuckets "GROCERY STORE\n12.50").2.1.length = 1 ∧
    (columnBuckets "GROCERY STORE\n12.50").2.2.length = 1 ∧
    (parse_column_format "GROCERY STORE\n12.50").length ≠
      min (columnBuckets "GROCERY STORE\n12.50").2.1.length
        (columnBuckets "GROCERY STORE\n12.50").2.2.length :=
  ⟨by decide, by decide, by decide, by decide⟩

/-- C2.  Fallback monotonicity of the stage chain: an AI result with at
least one line item is used as-is — the statement parser (hence the
regex, column and single-receipt stages) is never invoked, expressed by
the result being the same for *every* parser; an empty or failed AI
result falls through to the statement parser tagged `'ocr'`.  Inside the
statement parser: a nonempty regex scan makes the result independent of
the column and single-receipt stages; an empty regex scan invokes the
column stage; an empty column result invokes the single-receipt
fallback. -/
theorem fallbackChain :
    (∀ psd items text, items ≠ [] →
        extract_receipt_data_with psd (GemResult.ok items) text =
          { lineItems := items, extractionMethod := "gemini" }) ∧
    (∀ psd text, extract_receipt_data_with psd (GemResult.ok []) text =
        { lineItems := psd text, extractionMethod := "ocr" }) ∧
    (∀ psd text, extract_receipt_data_with psd GemResult.err text =
        { lineItems := psd text, extractionMethod := "ocr" }) ∧
    (∀ rf cf sf text, (rf text).2 ≠ [] →
        parse_statement_data_with rf cf sf text = finalize (rf text).2 (rf text).1) ∧
    (∀ rf cf sf text, (rf text).2 = [] → cf text ≠ [] →
        parse_statement_data_with rf cf sf text = finalize (cf text) (rf text).1) ∧
    (∀ rf cf sf text, (rf text).2 = [] → cf text = [] →
        parse_statement_data_with rf cf sf text = finalize (sf text) (rf text).1) := by
  refine ⟨?_, ?_, ?_, ?_, ?_, ?_⟩
  · intro psd items text h
    simp only [extract_receipt_data_with]
    rw [if_pos (List.length_pos.mpr h)]
  · intro psd text; rfl
  · intro psd text; rfl
  · intro rf cf sf text h
    have h0 : ¬ (rf text).2.length = 0 := fun hl => h (List.length_eq_zero.mp hl)
    simp [parse_statement_data_with, stageTxsWith, h0]
  · intro rf cf sf text h hc
    have h0 : (rf text).2.length = 0 := by rw [h]; rfl
    have hpos : 0 < (cf text).length := List.length_pos.mpr hc
    have hne0 : ¬ (cf text).length = 0 := Nat.pos_iff_ne_zero.mp hpos
    simp [parse_statement_data_with, stageTxsWith, h0, hpos, hne0]
  · intro rf cf sf text h hc
    have h0 : (rf text).2.length = 0 := by rw [h]; rfl
    have hc0 : (cf text).length = 0 := by rw [hc]; rfl
    simp [parse_statement_data_with, stageTxsWith, h0, hc0]

/-- C2 witness: the chain at concrete stage functions — a nonempty AI
result short-circuits, and with empty regex and column results the
single-receipt stage's output is used. -/
theorem fallbackChainWitness :
    extract_receipt_data_with (fun _ => [])
        (GemResult.ok [{ date := none, description := "X", amount := -100 }]) "t" =
      { lineItems := [{ date := none, description := "X", amount := -100 }],
        extractionMethod := "gemini" } ∧
    parse_statement_data_with (fun _ => (⟨none, none, none⟩, []))
        (fun _ => []) (fun _ => [{ date := none, description := "Y", amount := -200 }]) "t" =
      finalize [{ date := none, description := "Y", amount := -200 }] ⟨none, none, none⟩ :=
  ⟨fallbackChain.1 _ _ _ (by decide),
   fallbackChain.2.2.2.2.2 _ _ _ _ rfl rfl⟩

/-- C3 (amended).  The extraction-method tag takes exactly one of the
two values `'gemini'` and `'ocr'`: `'gemini'` exactly when the AI stage
produced the line items, and `'ocr'` for everything the statement parser
produced — the regex, column and single-receipt stages alike.  (The
claimed enum `ai`/`ocr`/`column` does not occur in the code; see
`extractionMethodTagCex`.) -/
theorem extractionMethodTag (gem : GemResult) (text : String) :
    ((extract_receipt_data gem text).extractionMethod = "gemini" ∨
      (extract_receipt_data gem text).extractionMethod = "ocr") ∧
    ((extract_receipt_data gem text).extractionMethod = "gemini" ↔
      ∃ items, gem = GemResult.ok items ∧ items ≠ [] ∧
        (extract_receipt_data gem text).lineItems = items) := by
  cases gem with
  | err =>
    refine ⟨Or.inr rfl, ?_, ?_⟩
    · intro h
      rw [show (extract_receipt_data GemResult.err text).extractionMethod = "ocr" from rfl] at h
      exact absurd h (by decide)
    · rintro ⟨items, habs, -, -⟩
      exact GemResult.noConfusion habs
  | ok items =>
    cases items with
    | nil =>
      refine ⟨Or.inr rfl, ?_, ?_⟩
      · intro h
        rw [show (extract_receipt_data (GemResult.ok []) text).extractionMethod = "ocr"
            from rfl] at h
        exact absurd h (by decide)
      · rintro ⟨items', heq, hne, -⟩
        cases GemResult.ok.inj heq
        exact absurd rfl hne
    | cons t ts =>
      have hred : extract_receipt_data (GemResult.ok (t :: ts)) text =
          { lineItems := t :: ts, extractionMethod := "gemini" } := by
        simp [extract_receipt_data, extract_receipt_data_with]
      rw [hred]
      exact ⟨Or.inl rfl, fun _ => ⟨t :: ts, rfl, by simp, rfl⟩, fun _ => rfl⟩

/-- C3 counterexample: a successful AI extraction is tagged `'gemini'`,
which is none of the claimed values `ai`, `ocr`, `column`. -/
theorem extractionMethodTagCex :
    (extract_receipt_data
        (GemResult.ok [{ date := none, description := "X", amount := -100 }])
        "").extractionMethod = "gemini" ∧
    ("gemini" ≠ "ai" ∧ "gemini" ≠ "ocr" ∧ "gemini" ≠ "column") :=
  ⟨rfl, by decide⟩

/-- A `Password error:` message never collides with the password
sentinel (their second characters differ). -/
theorem passwordErrorNeSentinel (m : String) :
    "Password error: " ++ m ≠ "PDF_PASSWORD_REQUIRED" := by
  intro h
  have h2 : ("Password error: " ++ m).data = ("PDF_PASSWORD_REQUIRED" : String).data :=
    congrArg String.data h
  rw [stringAppendData] at h2
  have h3 : (("Password error: " : String).data ++ m.data)[1]? =
      (("PDF_PASSWORD_REQUIRED" : String).data)[1]? := by rw [h2]
  rw [List.getElem?_append_left (by decide)] at h3
  exact absurd h3 (by decide)

/-- A `PDF extraction error:` message never collides with the password
sentinel (their fourth characters differ). -/
theorem extractionErrorNeSentinel (m : String) :
    "PDF extraction error: " ++ m ≠ "PDF_PASSWORD_REQUIRED" := by
  intro h
  have h2 : ("PDF extraction error: " ++ m).data = ("PDF_PASSWORD_REQUIRED" : String).data :=
    congrArg String.data h
  rw [stringAppendData] at h2
  have h3 : (("PDF extraction error: " : String).data ++ m.data)[3]? =
      (("PDF_PASSWORD_REQUIRED" : String).data)[3]? := by rw [h2]
  rw [List.getElem?_append_left (by decide)] at h3
  exact absurd h3 (by decide)

/-- C7.  Password-required sentinel: an encrypted PDF with no (truthy)
password makes `extract_text_from_pdf` return exactly the sentinel
`PDF_PASSWORD_REQUIRED`, which the caller propagates; and conversely no
other failure — missing PDF support, a read or extraction exception, a
wrong password, a decryption exception — ever produces a string equal to
the sentinel, so the caller can distinguish it and re-prompt. -/
theorem pdfPasswordSentinel :
    (∀ pdf password, pdf.readErr = none → pdf.encrypted = true →
        pwTruthy password = false →
        extract_text_from_pdf true pdf password = (none, some "PDF_PASSWORD_REQUIRED") ∧
        pdfStepError true pdf password = some "PDF_PASSWORD_REQUIRED") ∧
    (∀ pdfSupport pdf password e,
        extract_text_from_pdf pdfSupport pdf password = (none, some e) →
        (e = "PDF_PASSWORD_REQUIRED" ↔
          (pdfSupport = true ∧ pdf.readErr = none ∧ pdf.encrypted = true ∧
            pwTruthy password = false))) := by
  constructor
  · intro pdf password hr he hp
    have h1 : extract_text_from_pdf true pdf password =
        (none, some "PDF_PASSWORD_REQUIRED") := by
      simp [extract_text_from_pdf, hr, he, hp]
    exact ⟨h1, by simp [pdfStepError, h1]⟩
  · intro pdfSupport pdf password e h
    cases pdfSupport with
    | false =>
      simp [extract_text_from_pdf] at h
      constructor
      · intro hee
        rw [hee] at h
        exact absurd h (by decide)
      · rintro ⟨habs, -⟩
        exact Bool.noConfusion habs
    | true =>
      cases hr : pdf.readErr with
      | some m =>
        simp [extract_text_from_pdf, hr] at h
        constructor
        · intro hee
          rw [hee] at h
          exact absurd h (extractionErrorNeSentinel m)
        · rintro ⟨-, habs, -⟩
          exact Option.noConfusion habs
      | none =>
        cases he : pdf.encrypted with
        | false =>
          cases hx : pdf.extractErr with
          | some m =>
            simp [extract_text_from_pdf, hr, he, hx] at h
            constructor
            · intro hee
              rw [hee] at h
              exact absurd h (extractionErrorNeSentinel m)
            · rintro ⟨-, -, habs, -⟩
              exact Bool.noConfusion habs
          | none =>
            simp [extract_text_from_pdf, hr, he, hx] at h
        | true =>
          cases hpw : pwTruthy password with
          | false =>
            simp [extract_text_from_pdf, hr, he, hpw] at h
            constructor
            · intro _
              exact ⟨rfl, rfl, rfl, rfl⟩
            · intro _
              exact h.symm
          | true =>
            cases hd : pdf.decryptWith (password.getD "") with
            | bad =>
              simp [extract_text_from_pdf, hr, he, hpw, hd] at h
              constructor
              · intro hee
                rw [hee] at h
                exact absurd h (by decide)
              · rintro ⟨-, -, -, habs⟩
                exact Bool.noConfusion habs
            | raises m =>
              simp [extract_text_from_pdf, hr, he, hpw, hd] at h
              constructor
              · intro hee
                rw [hee] at h
                exact absurd h (passwordErrorNeSentinel m)
              · rintro ⟨-, -, -, habs⟩
                exact Bool.noConfusion habs
            | ok =>
              cases hx : pdf.extractErr with
              | some m =>
                simp [extract_text_from_pdf, hr, he, hpw, hd, hx] at h
                constructor
                · intro hee
                  rw [hee] at h
                  exact absurd h (extractionErrorNeSentinel m)
                · rintro ⟨-, -, -, habs⟩
                  exact Bool.noConfusion habs
              | none =>
                simp [extract_text_from_pdf, hr, he, hpw, hd, hx] at h

/-- C7 witness: a concrete encrypted PDF with no password yields the
sentinel through both the extractor and the caller's branch, by the
theorem. -/
theorem pdfPasswordSentinelWitness :
    extract_text_from_pdf true
        { readErr := none, encrypted := true, decryptWith := fun _ => DecryptOutcome.bad,
          extractErr := none, text := "T" } none =
      (none, some "PDF_PASSWORD_REQUIRED") ∧
    pdfStepError true
        { readErr := none, encrypted := true, decryptWith := fun _ => DecryptOutcome.bad,
          extractErr := none, text := "T" } none =
      some "PDF_PASSWORD_REQUIRED" :=
  pdfPasswordSentinel.1
    { readErr := none, encrypted := true, decryptWith := fun _ => DecryptOutcome.bad,
      extractErr := none, text := "T" } none rfl rfl rfl

/-- C8 (amended).  The description cleanup is the identity — hence
idempotent — on descriptions already free of its artifacts: already
stripped and whitespace-collapsed, and fixed by each of the five
substitution rules.  (Unrestricted idempotence on cleanup *outputs* is
false: one pass strips only one leading transaction-type prefix and only
the final trailing date, so stacked artifacts survive a pass and are
removed by the next — see `cleanupFixedPointCex`.) -/
theorem cleanupFixedPoint (s : String)
    (h0 : pyStrip s = s)
    (h1 : reSubAll cleanPrefixRE "" s = s)
    (h2 : reSubAll postDateRE "" s = s)
    (h3 : reSubAll datePostRE "" s = s)
    (h4 : reSubAll trailingDateRE "" s = s)
    (h5 : reSubAll postAloneRE "" s = s)
    (h6 : reSubAll wsPlus " " s = s) :
    cleanDesc s = s ∧ cleanDesc (cleanDesc s) = cleanDesc s := by
  have hclean : cleanDesc s = s := by
    simp only [cleanDesc]
    rw [h0, h1, h2, h3, h4, h5, h6, h0]
  exact ⟨hclean, by rw [hclean, hclean]⟩

/-- C8 witness: a concrete clean description is a fixed point of the
cleanup, twice over, by the theorem. -/
theorem cleanupFixedPointWitness :
    cleanDesc "STARBUCKS STORE" = "STARBUCKS STORE" ∧
    cleanDesc (cleanDesc "STARBUCKS STORE") = cleanDesc "STARBUCKS STORE" :=
  cleanupFixedPoint "STARBUCKS STORE" (by decide) (by decide) (by decide) (by decide)
    (by decide) (by decide) (by decide)

/-- C8 counterexample: `PURCHASE PURCHASE STORE` cleans to
`PURCHASE STORE` (itself a cleanup output), and cleaning that again
yields `STORE` — the transform is not idempotent on its own outputs. -/
theorem cleanupFixedPointCex :
    cleanDesc "PURCHASE PURCHASE STORE" = "PURCHASE STORE" ∧
    cleanDesc (cleanDesc "PURCHASE PURCHASE STORE") = "STORE" ∧
    cleanDesc (cleanDesc "PURCHASE PURCHASE STORE") ≠ cleanDesc "PURCHASE PURCHASE STORE" :=
  ⟨by decide, by decide, by decide⟩

/-- C10 (amended).  Total synthesis: when at least one transaction was
extracted and no totals line set `statement_info['total']`, the total is
synthesized as the sum of the absolute amounts, and the info object is
attached to the first transaction exactly when some of its values is
then truthy — in particular whenever the synthesized sum is nonzero.
(With an all-zero sum and no balances nothing is attached, refuting the
unconditional attachment of the original claim — see
`totalSynthesisCex`.) -/
theorem totalSynthesis (text : String) (t : Tx) (rest : List Tx)
    (hTot : (regexScan text).1.total = none)
    (hTxs : stageTxs text = t :: rest) :
    parse_statement_data text =
      if (sumAbs (t :: rest) != 0 || truthyOpt (regexScan text).1.previous_balance ||
          truthyOpt (regexScan text).1.new_balance)
      then ({ t with statementInfo := some ({ (regexScan text).1 with total := some (sumAbs (t :: rest)) }) }) :: rest
      else t :: rest := by
  have h1 : parse_statement_data text = finalize (stageTxs text) (regexScan text).1 := rfl
  rw [h1, hTxs]
  simp only [finalize]
  rw [hTot]
  simp [truthyOpt, attachInfo]

/-- C10 witness: a single charge of 5.00 with no totals line gets a
synthesized total of 500 cents attached to its only transaction, by the
theorem. -/
theorem totalSynthesisWitness :
    parse_statement_data "01/02/25 SOMESTORE 5.00" =
      [{ date := some ⟨2025, 1, 2⟩, description := "SOMESTORE", amount := -500,
         statementInfo := some { total := some 500, previous_balance := none,
                                 new_balance := none } }] := by
  have h := totalSynthesis "01/02/25 SOMESTORE 5.00"
      { date := some ⟨2025, 1, 2⟩, description := "SOMESTORE", amount := -500 } []
      (by decide) (by decide)
  rw [h]
  decide

/-- C10 counterexample: with one extracted transaction of amount 0.00 and
no totals line, the synthesized total is 0 (falsy), so nothing is
attached to the first transaction — the claim's unconditional attachment
fails. -/
theorem totalSynthesisCex :
    (regexScan "01/02/25 SOMESTORE 0.00").1.total = none ∧
    stageTxs "01/02/25 SOMESTORE 0.00" =
      [{ date := some ⟨2025, 1, 2⟩, description := "SOMESTORE", amount := 0 }] ∧
    parse_statement_data "01/02/25 SOMESTORE 0.00" =
      [{ date := some ⟨2025, 1, 2⟩, description := "SOMESTORE", amount := 0 }] ∧
    ({ date := some ⟨2025, 1, 2⟩, description := "SOMESTORE", amount := 0 } : Tx).statementInfo
      = none :=
  ⟨by decide, by decide, by decide, by decide⟩

end ReceiptOcr
